import Mathlib

/-!
Shallow embedding of the design-canvas composition and pricing engine of the
custom-apparel storefront (the `DesignCanvas` component).  Pure state is the
component's React state; each event handler becomes a function on that state.
The persistence backend (`POST /api/designs`) is not part of the client source,
so it is modelled from the spec as a store assigning fresh identifiers.
Monetary amounts (the result of `parseFloat` on the decimal base-price string)
are modelled as rationals.
-/

namespace DesignCanvas

/-- The `Product` interface: id, name, description, basePrice (the parsed
numeric value of the decimal string), category, colors, sizes, imageUrl. -/
structure Product where
  id : String
  name : String
  description : String
  basePrice : ℚ
  category : String
  colors : List String
  sizes : List String
  imageUrl : Option String
deriving DecidableEq, Repr

/-- Kinds of design elements: the `type` field of `DesignElement`. -/
inductive ElementType where
  | text
  | shape
  | image
deriving DecidableEq, Repr

/-- The `DesignElement` interface: id, type, content, x, y, width, height,
color, and the optional fontSize / fontFamily used for text elements. -/
structure DesignElement where
  id : String
  type : ElementType
  content : String
  x : Int
  y : Int
  width : Int
  height : Int
  color : String
  fontSize : Option Nat
  fontFamily : Option String
deriving DecidableEq, Repr

/-- The component state of `DesignCanvas` relevant to the engine: selected
product, element list, selected color and size, the text-tool inputs, the
quantity, and the session's saved-design identifier.  Identifiers assigned by
the persistence backend are modelled as naturals. -/
structure DesignState where
  selectedProduct : Option Product
  elements : List DesignElement
  selectedColor : String
  selectedSize : String
  textInput : String
  textColor : String
  fontSize : Nat
  fontFamily : String
  quantity : Nat
  savedDesignId : Option Nat
deriving DecidableEq, Repr

/-- Unit price as displayed and as used for `customPrice`:
`parseFloat(selectedProduct.basePrice) + (elements.length > 0 ? 5 : 0)`. -/
def unitPrice (p : Product) (elements : List DesignElement) : ℚ :=
  p.basePrice + (if elements.length > 0 then 5 else 0)

/-- Total price as displayed:
`(parseFloat(basePrice) + (elements.length > 0 ? 5 : 0)) * quantity`. -/
def totalPrice (p : Product) (elements : List DesignElement) (quantity : Nat) : ℚ :=
  unitPrice p elements * quantity

/-- The color `Select`'s `onValueChange={setSelectedColor}` handler: the chosen
value is stored verbatim, with no validation against the product's colors. -/
def setSelectedColorHandler (st : DesignState) (value : String) : DesignState :=
  { st with selectedColor := value }

/-- The size `Select`'s `onValueChange={setSelectedSize}` handler: the chosen
value is stored verbatim, with no validation against the product's sizes. -/
def setSelectedSizeHandler (st : DesignState) (value : String) : DesignState :=
  { st with selectedSize := value }

/-- The option values the color `Select` renders: one `SelectItem` per entry of
`selectedProduct.colors` (the control only appears when a product is
selected). -/
def colorOptions (st : DesignState) : List String :=
  match st.selectedProduct with
  | some p => p.colors
  | none => []

/-- The option values the size `Select` renders: one `SelectItem` per entry of
`selectedProduct?.sizes`, or `[]` when no product is selected. -/
def sizeOptions (st : DesignState) : List String :=
  match st.selectedProduct with
  | some p => p.sizes
  | none => []

/-- The product `Select`'s `onValueChange` handler: look the product up by id
in the fetched list; when found, set it as selected and reset the color and
size to `product.colors[0]` / `product.sizes[0]`.  In JavaScript, indexing an
empty array yields `undefined`; that out-of-domain value is modelled by the
`""` default of `headD`.  The element list is not touched. -/
def onProductChange (products : List Product) (value : String) (st : DesignState) :
    DesignState :=
  match products.find? (fun p => p.id == value) with
  | none => st
  | some product =>
      { st with
        selectedProduct := some product
        selectedColor := product.colors.headD ""
        selectedSize := product.sizes.headD "" }

/-- JavaScript's `String.prototype.trim`, used by the `!textInput.trim()`
guard: strips leading and trailing whitespace characters.  Defined
structurally over the character list so that it evaluates in the kernel. -/
def jsTrim (s : String) : String :=
  ⟨((s.data.dropWhile Char.isWhitespace).reverse.dropWhile
      Char.isWhitespace).reverse⟩

/-- `addText`, parameterised by `now`, the `Date.now()` millisecond timestamp:
a no-op when the trimmed text input is empty (the `!textInput.trim()` early
return); otherwise appends a text element at the fixed anchor (160, 200) with
width 100, height 30, the current text color, font size and font family, then
clears the text input. -/
def addText (now : Nat) (st : DesignState) : DesignState :=
  if jsTrim st.textInput = "" then st
  else
    { st with
      elements := st.elements ++
        [{ id := toString now
           type := ElementType.text
           content := st.textInput
           x := 160, y := 200, width := 100, height := 30
           color := st.textColor
           fontSize := some st.fontSize
           fontFamily := some st.fontFamily }]
      textInput := "" }

/-- `addShape`, parameterised by `now`, the `Date.now()` millisecond timestamp:
appends a shape element (`"rectangle"` or `"circle"`) at the fixed anchor
(160, 200) with width and height 60, filled with the current text color. -/
def addShape (now : Nat) (shapeType : String) (st : DesignState) : DesignState :=
  { st with
    elements := st.elements ++
      [{ id := toString now
         type := ElementType.shape
         content := shapeType
         x := 160, y := 200, width := 60, height := 60
         color := st.textColor
         fontSize := none
         fontFamily := none }] }

/-- A persisted design record: identifier, display name, and the
`designData` payload {product, elements, color, size}. -/
structure SavedDesign where
  id : Nat
  name : String
  product : Product
  elements : List DesignElement
  color : String
  size : String
deriving DecidableEq, Repr

/-- The design-persistence collaborator's state: the records created so far and
the next fresh identifier. -/
structure Store where
  designs : List SavedDesign
  nextId : Nat
deriving DecidableEq, Repr

/-- Modelled from the spec: the server handler behind `POST /api/designs`
(`createDesign`) is not under src/; per the external-interface contract it
creates a new `SavedDesign` record from the submitted name and payload and
returns it, assigning a fresh identifier. -/
def createDesign (store : Store) (name : String) (p : Product)
    (els : List DesignElement) (color size : String) : Store × SavedDesign :=
  let d : SavedDesign :=
    { id := store.nextId, name := name, product := p
      elements := els, color := color, size := size }
  ({ designs := store.designs ++ [d], nextId := store.nextId + 1 }, d)

/-- Failure modes surfaced by `saveDesign` before any request is issued. -/
inductive SaveError where
  | NotAuthenticated
  | ValidationError
deriving DecidableEq, Repr

/-- `saveDesign`: with no signed-in user fails (login toast, returns null);
with no selected product or an empty element list fails (validation toast,
returns null) touching neither the state nor the store; otherwise posts the
name and the {product, elements, color, size} payload to `createDesign`,
records the returned id in `savedDesignId`, and returns that id. -/
def saveDesign (user : Option String) (st : DesignState) (store : Store) :
    DesignState × Store × Except SaveError Nat :=
  match user with
  | none => (st, store, Except.error SaveError.NotAuthenticated)
  | some _ =>
    match st.selectedProduct with
    | none => (st, store, Except.error SaveError.ValidationError)
    | some p =>
      if st.elements.length = 0 then
        (st, store, Except.error SaveError.ValidationError)
      else
        let r := createDesign store (p.name ++ " Design") p st.elements
          st.selectedColor st.selectedSize
        ({ st with savedDesignId := some r.2.id }, r.1, Except.ok r.2.id)

/-- A cart line item as assembled by `addToCartWithDesign`: product id,
optional design id, quantity, size, color, and the captured `customPrice`. -/
structure CartItem where
  productId : String
  designId : Option Nat
  quantity : Nat
  size : String
  color : String
  customPrice : ℚ
deriving DecidableEq, Repr

/-- `addToCartWithDesign`: requires a signed-in user and a selected product;
saves the design first when there are elements and no saved id yet; then
builds the cart item with `customPrice` computed at this moment from the base
price and the design-fee rule, and submits it. -/
def addToCartWithDesign (user : Option String) (st : DesignState) (store : Store) :
    DesignState × Store × Option CartItem :=
  match user with
  | none => (st, store, none)
  | some _ =>
    match st.selectedProduct with
    | none => (st, store, none)
    | some p =>
      let step :=
        if st.elements.length > 0 ∧ st.savedDesignId = none then
          match saveDesign user st store with
          | (st1, store1, Except.ok i) => (st1, store1, some i)
          | (st1, store1, Except.error _) => (st1, store1, none)
        else (st, store, st.savedDesignId)
      let customPrice := p.basePrice + (if st.elements.length > 0 then 5 else 0)
      (step.1, step.2.1,
        some { productId := p.id, designId := step.2.2, quantity := st.quantity
               size := st.selectedSize, color := st.selectedColor
               customPrice := customPrice })

/-- The top-left product-info overlay of `drawCanvas`: drawn only when a
product is selected, with the text
`{selectedProduct.name} - {selectedColor.toUpperCase()}`. -/
def labelOverlay (st : DesignState) : Option String :=
  match st.selectedProduct with
  | none => none
  | some p => some (p.name ++ " - " ++ st.selectedColor.toUpper)

/-- A sample product matching the spec's scenario: base price 20.00, colors
white/black, sizes S/M. -/
def sampleProduct : Product :=
  { id := "p1", name := "Classic Tee", description := "A classic tee"
    basePrice := 20, category := "apparel"
    colors := ["white", "black"], sizes := ["S", "M"], imageUrl := none }

/-- A sample text element ("Hi" at the default anchor). -/
def sampleElement : DesignElement :=
  { id := "1000", type := ElementType.text, content := "Hi"
    x := 160, y := 200, width := 100, height := 30
    color := "#000000", fontSize := some 24, fontFamily := some "Arial" }

/-- A fresh editing session on the sample product: no elements, no saved id. -/
def sampleState : DesignState :=
  { selectedProduct := some sampleProduct, elements := []
    selectedColor := "white", selectedSize := "M"
    textInput := "", textColor := "#000000", fontSize := 24
    fontFamily := "Arial", quantity := 1, savedDesignId := none }

/-- The sample session after one element was added. -/
def designedState : DesignState :=
  { sampleState with elements := [sampleElement] }

/-- An empty persistence store. -/
def emptyStore : Store := { designs := [], nextId := 0 }

end DesignCanvas

namespace DesignCanvas

/-- Claim C1: with a selected product, the derived unit price equals the base
price when the element list is empty and base price + 5.00 when it is
non-empty, regardless of the element count, and the derived total price is the
unit price multiplied by the quantity. -/
theorem pricing_spec (p : Product) (els : List DesignElement) (q : Nat) :
    (els = [] → unitPrice p els = p.basePrice) ∧
    (els ≠ [] → unitPrice p els = p.basePrice + 5) ∧
    totalPrice p els q = unitPrice p els * q := by
  refine ⟨fun h => ?_, fun h => ?_, rfl⟩
  · subst h; simp [unitPrice]
  · have : els.length > 0 := List.length_pos.mpr h
    simp [unitPrice, this]

/-- Witness for C1 at the spec's scenario: base price 20.00, one element,
quantity 3 gives unit price 25.00 and total 75.00. -/
theorem pricing_spec_witness :
    unitPrice sampleProduct [sampleElement] = 25 ∧
    totalPrice sampleProduct [sampleElement] 3 = 75 := by
  have h := pricing_spec sampleProduct [sampleElement] 3
  have h1 := h.2.1 (by simp)
  have h2 := h.2.2
  rw [h1] at h2 ⊢
  exact ⟨by norm_num [sampleProduct], by rw [h2]; norm_num [sampleProduct]⟩

/-- Claim C2 counterexample: the value "purple" is not among the sample
product's colors, yet selecting it through the color handler does not fail and
overwrites the previously stored selection "white", so the prior selection is
not left intact. -/
theorem invalid_color_overwrites :
    "purple" ∉ sampleProduct.colors ∧
    sampleState.selectedColor = "white" ∧
    (setSelectedColorHandler sampleState "purple").selectedColor = "purple" := by
  exact ⟨by decide, rfl, rfl⟩

/-- Claim C2 amended: the color/size handlers never fail and store any given
value verbatim — validation is absent; instead, the UI offers exactly the
selected product's declared colors and sizes as choices, so every value
selectable through the UI lies in the declared set and is stored verbatim. -/
theorem select_handlers_amended (st : DesignState) (p : Product) (value : String)
    (h : st.selectedProduct = some p) :
    (setSelectedColorHandler st value).selectedColor = value ∧
    (setSelectedSizeHandler st value).selectedSize = value ∧
    colorOptions st = p.colors ∧ sizeOptions st = p.sizes := by
  refine ⟨rfl, rfl, ?_, ?_⟩ <;> simp [colorOptions, sizeOptions, h]

/-- Witness for the amended C2 at the in-set value "black". -/
theorem select_handlers_amended_witness :
    (setSelectedColorHandler sampleState "black").selectedColor = "black" ∧
    (setSelectedSizeHandler sampleState "black").selectedSize = "black" ∧
    colorOptions sampleState = sampleProduct.colors ∧
    sizeOptions sampleState = sampleProduct.sizes :=
  select_handlers_amended sampleState sampleProduct "black" rfl

/-- Claim C3: for a signed-in user, saving with no selected product or an
empty element list fails with ValidationError, creates no SavedDesign (the
store is untouched), and returns the design state exactly unchanged. -/
theorem save_validation_error (u : String) (st : DesignState) (store : Store)
    (h : st.selectedProduct = none ∨ st.elements = []) :
    saveDesign (some u) st store =
      (st, store, Except.error SaveError.ValidationError) := by
  rcases h with h | h
  · simp [saveDesign, h]
  · cases hp : st.selectedProduct <;> simp [saveDesign, hp, h]

/-- Witness for C3: a fresh session with no elements. -/
theorem save_validation_error_witness :
    saveDesign (some "u1") sampleState emptyStore =
      (sampleState, emptyStore, Except.error SaveError.ValidationError) :=
  save_validation_error "u1" sampleState emptyStore (Or.inr rfl)

/-- Claim C4 counterexample: saving the same design twice in one session with
no edits in between returns identifier 0 and then identifier 1 — two distinct
identifiers — and leaves two records in the store instead of updating one. -/
theorem save_twice_duplicates :
    (saveDesign (some "u1") designedState emptyStore).2.2 = Except.ok 0 ∧
    (saveDesign (some "u1") (saveDesign (some "u1") designedState emptyStore).1
        (saveDesign (some "u1") designedState emptyStore).2.1).2.2 = Except.ok 1 ∧
    (Except.ok 0 : Except SaveError Nat) ≠ Except.ok 1 ∧
    (saveDesign (some "u1") (saveDesign (some "u1") designedState emptyStore).1
        (saveDesign (some "u1") designedState emptyStore).2.1).2.1.designs.length
      = 2 := by
  refine ⟨rfl, rfl, by simp, rfl⟩

/-- Claim C4 amended: the explicit save operation is not idempotent — every
successful save issues a create, returning the store's next fresh identifier
and appending a new record, so two consecutive saves without edits return
distinct identifiers and grow the store by two records; identifier reuse
happens only on the implicit add-to-cart path, which skips saving once an
identifier is recorded. -/
theorem save_always_creates (u : String) (st : DesignState) (store : Store)
    (p : Product) (hp : st.selectedProduct = some p) (hne : st.elements ≠ []) :
    (saveDesign (some u) st store).2.2 = Except.ok store.nextId ∧
    (saveDesign (some u) (saveDesign (some u) st store).1
        (saveDesign (some u) st store).2.1).2.2 = Except.ok (store.nextId + 1) ∧
    store.nextId ≠ store.nextId + 1 ∧
    (saveDesign (some u) (saveDesign (some u) st store).1
        (saveDesign (some u) st store).2.1).2.1.designs.length
      = store.designs.length + 2 := by
  have hlen : st.elements.length ≠ 0 := by simpa using hne
  refine ⟨?_, ?_, by omega, ?_⟩ <;>
    simp [saveDesign, createDesign, hp, hlen]

/-- Witness for the amended C4 at the sample session with one element. -/
theorem save_always_creates_witness :
    (saveDesign (some "u1") designedState emptyStore).2.2 =
      Except.ok emptyStore.nextId ∧
    (saveDesign (some "u1") (saveDesign (some "u1") designedState emptyStore).1
        (saveDesign (some "u1") designedState emptyStore).2.1).2.2 =
      Except.ok (emptyStore.nextId + 1) ∧
    emptyStore.nextId ≠ emptyStore.nextId + 1 ∧
    (saveDesign (some "u1") (saveDesign (some "u1") designedState emptyStore).1
        (saveDesign (some "u1") designedState emptyStore).2.1).2.1.designs.length
      = emptyStore.designs.length + 2 :=
  save_always_creates "u1" designedState emptyStore sampleProduct rfl (by decide)

/-- Claim C5: when elements exist and no saved-design identifier is recorded,
add-to-cart saves implicitly before building the line item: afterwards the
store holds a record with the fresh identifier and the current design payload,
and the cart item references that identifier and carries the product id,
quantity, size, color and the unit price computed at this moment. -/
theorem addToCart_implicit_save (u : String) (st : DesignState) (store : Store)
    (p : Product) (hp : st.selectedProduct = some p) (hne : st.elements ≠ [])
    (hid : st.savedDesignId = none) :
    (addToCartWithDesign (some u) st store).2.2 =
      some { productId := p.id, designId := some store.nextId
             quantity := st.quantity, size := st.selectedSize
             color := st.selectedColor, customPrice := unitPrice p st.elements } ∧
    (∃ d ∈ (addToCartWithDesign (some u) st store).2.1.designs,
      d.id = store.nextId ∧ d.product = p ∧ d.elements = st.elements ∧
      d.color = st.selectedColor ∧ d.size = st.selectedSize) := by
  have hlen : st.elements.length ≠ 0 := by simpa using hne
  have hpos : 0 < st.elements.length := Nat.pos_of_ne_zero hlen
  constructor
  · simp [addToCartWithDesign, saveDesign, createDesign, hp, hid, hpos, hlen,
      unitPrice]
  · refine ⟨{ id := store.nextId, name := p.name ++ " Design", product := p
              elements := st.elements, color := st.selectedColor
              size := st.selectedSize }, ?_, rfl, rfl, rfl, rfl, rfl⟩
    simp [addToCartWithDesign, saveDesign, createDesign, hp, hid, hpos, hlen]

/-- Witness for C5 at the sample session with one element. -/
theorem addToCart_implicit_save_witness :
    (addToCartWithDesign (some "u1") designedState emptyStore).2.2 =
      some { productId := sampleProduct.id, designId := some emptyStore.nextId
             quantity := designedState.quantity, size := designedState.selectedSize
             color := designedState.selectedColor
             customPrice := unitPrice sampleProduct designedState.elements } ∧
    (∃ d ∈ (addToCartWithDesign (some "u1") designedState emptyStore).2.1.designs,
      d.id = emptyStore.nextId ∧ d.product = sampleProduct ∧
      d.elements = designedState.elements ∧
      d.color = designedState.selectedColor ∧
      d.size = designedState.selectedSize) :=
  addToCart_implicit_save "u1" designedState emptyStore sampleProduct rfl
    (by decide) rfl

/-- Two sample sessions differing only in the selected size, both sizes drawn
from the sample product's declared sizes. -/
def stateSizeS : DesignState :=
  { sampleState with selectedColor := "black", selectedSize := "S" }

/-- The same sample session with size "M" instead of "S". -/
def stateSizeM : DesignState :=
  { sampleState with selectedColor := "black", selectedSize := "M" }

/-- Claim C6 counterexample: two renders whose states differ only in the
selected size — both "S" and "M" are declared sizes of the sample product —
produce the identical label overlay "Classic Tee - BLACK", so the rendered
label does not reflect the selected size. -/
theorem label_ignores_size :
    "S" ∈ sampleProduct.sizes ∧ "M" ∈ sampleProduct.sizes ∧
    stateSizeS.selectedSize ≠ stateSizeM.selectedSize ∧
    labelOverlay stateSizeS = labelOverlay stateSizeM ∧
    labelOverlay stateSizeS =
      some (sampleProduct.name ++ " - " ++ ("black").toUpper) := by
  refine ⟨by decide, by decide, by decide, rfl, rfl⟩

/-- Claim C6 amended: after selecting any valid (color, size) pair from the
product's declared sets, the subsequent render's label overlay shows the
product name together with the selected color uppercased; the selected size
does not appear in the label. -/
theorem label_shows_selected_color (st : DesignState) (p : Product)
    (c s : String) (hp : st.selectedProduct = some p)
    (hc : c ∈ p.colors) (hs : s ∈ p.sizes) :
    labelOverlay (setSelectedSizeHandler (setSelectedColorHandler st c) s) =
      some (p.name ++ " - " ++ c.toUpper) := by
  simp [labelOverlay, setSelectedColorHandler, setSelectedSizeHandler, hp]

/-- Witness for the amended C6 at the pair ("black", "M"). -/
theorem label_shows_selected_color_witness :
    labelOverlay (setSelectedSizeHandler (setSelectedColorHandler sampleState
        "black") "M") =
      some (sampleProduct.name ++ " - " ++ ("black").toUpper) :=
  label_shows_selected_color sampleState sampleProduct "black" "M" rfl
    (by decide) (by decide)

/-- Claim C7: adding text with empty or whitespace-only input is a no-op on
the whole state; for any other input exactly one new text element carrying
that input is appended at the end of the sequence at the fixed anchor
(160, 200), with all previously added elements unchanged. -/
theorem addText_spec (now : Nat) (st : DesignState) :
    (jsTrim st.textInput = "" → addText now st = st) ∧
    (jsTrim st.textInput ≠ "" →
      (addText now st).elements.length = st.elements.length + 1 ∧
      (addText now st).elements.take st.elements.length = st.elements ∧
      ∃ e : DesignElement,
        (addText now st).elements.getLast? = some e ∧
        e.type = ElementType.text ∧ e.content = st.textInput ∧
        e.x = 160 ∧ e.y = 200) := by
  constructor
  · intro h; simp [addText, h]
  · intro h
    refine ⟨by simp [addText, h], ?_, ?_⟩
    · simp only [addText, if_neg h]
      exact List.take_left _ _
    · refine ⟨{ id := toString now, type := ElementType.text
                content := st.textInput, x := 160, y := 200, width := 100
                height := 30, color := st.textColor
                fontSize := some st.fontSize
                fontFamily := some st.fontFamily },
              ?_, rfl, rfl, rfl, rfl⟩
      simp [addText, h]

/-- Witness for C7: a session whose text input is "Hi". -/
theorem addText_spec_witness :
    (addText 1000 { sampleState with textInput := "Hi" }).elements.length =
      ({ sampleState with textInput := "Hi" } : DesignState).elements.length + 1 ∧
    (addText 1000 { sampleState with textInput := "Hi" }).elements.take
        ({ sampleState with textInput := "Hi" } : DesignState).elements.length =
      ({ sampleState with textInput := "Hi" } : DesignState).elements ∧
    ∃ e : DesignElement,
      (addText 1000 { sampleState with textInput := "Hi" }).elements.getLast? =
        some e ∧
      e.type = ElementType.text ∧
      e.content = ({ sampleState with textInput := "Hi" } : DesignState).textInput ∧
      e.x = 160 ∧ e.y = 200 :=
  (addText_spec 1000 { sampleState with textInput := "Hi" }).2 (by decide)

/-- Claim C8: when the product lookup by id finds P and P's colors and sizes
are non-empty, the product-change handler selects P, resets the selected color
to P.colors[0] and the selected size to P.sizes[0], and leaves the element
sequence unchanged. -/
theorem onProductChange_spec (products : List Product) (st : DesignState)
    (p : Product) (hfind : products.find? (fun q => q.id == p.id) = some p)
    (hc : p.colors ≠ []) (hs : p.sizes ≠ []) :
    (onProductChange products p.id st).selectedProduct = some p ∧
    (onProductChange products p.id st).selectedColor = p.colors.head hc ∧
    (onProductChange products p.id st).selectedSize = p.sizes.head hs ∧
    (onProductChange products p.id st).elements = st.elements := by
  refine ⟨?_, ?_, ?_, ?_⟩ <;>
    simp [onProductChange, hfind, List.head?_eq_head hc, List.head?_eq_head hs]

/-- A second sample product, used to exercise a product switch. -/
def sampleProduct2 : Product :=
  { id := "p2", name := "Premium Hoodie", description := "A premium hoodie"
    basePrice := 35, category := "apparel"
    colors := ["navy", "red"], sizes := ["L", "XL"], imageUrl := none }

/-- Witness for C8: switching the designed session to the second product picks
its first color "navy" and first size "L" and keeps the element list. -/
theorem onProductChange_spec_witness :
    (onProductChange [sampleProduct, sampleProduct2] sampleProduct2.id
        designedState).selectedProduct = some sampleProduct2 ∧
    (onProductChange [sampleProduct, sampleProduct2] sampleProduct2.id
        designedState).selectedColor =
      sampleProduct2.colors.head (by decide) ∧
    (onProductChange [sampleProduct, sampleProduct2] sampleProduct2.id
        designedState).selectedSize =
      sampleProduct2.sizes.head (by decide) ∧
    (onProductChange [sampleProduct, sampleProduct2] sampleProduct2.id
        designedState).elements = designedState.elements :=
  onProductChange_spec [sampleProduct, sampleProduct2] designedState
    sampleProduct2 (by decide) (by decide) (by decide)

/-- Claim C9, evaluated at the failing input: adding a rectangle and then a
circle within the same millisecond (both at `Date.now()` = 1000) gives both
elements the identifier "1000", so the identifiers in the resulting design are
not pairwise distinct. -/
theorem element_ids_collide :
    ((addShape 1000 "circle" (addShape 1000 "rectangle" sampleState)).elements.map
        DesignElement.id) = ["1000", "1000"] ∧
    ¬ ((addShape 1000 "circle" (addShape 1000 "rectangle" sampleState)).elements.map
        DesignElement.id).Nodup := by
  refine ⟨by decide, by decide⟩

/-- Claim C10: once a saved-design identifier is recorded in the session,
add-to-cart skips the implicit save entirely — the design state and the store
are untouched, whatever elements were added since the save — and the cart item
references the previously recorded identifier and the price computed now. -/
theorem addToCart_skips_save (u : String) (st : DesignState) (store : Store)
    (p : Product) (d : Nat) (hp : st.selectedProduct = some p)
    (hid : st.savedDesignId = some d) :
    (addToCartWithDesign (some u) st store).1 = st ∧
    (addToCartWithDesign (some u) st store).2.1 = store ∧
    (addToCartWithDesign (some u) st store).2.2 =
      some { productId := p.id, designId := some d, quantity := st.quantity
             size := st.selectedSize, color := st.selectedColor
             customPrice := unitPrice p st.elements } := by
  refine ⟨?_, ?_, ?_⟩ <;> simp [addToCartWithDesign, hp, hid, unitPrice]

/-- Witness for C10: the designed session after a save recorded identifier 0;
adding to cart reuses identifier 0 and creates nothing. -/
theorem addToCart_skips_save_witness :
    (addToCartWithDesign (some "u1")
        { designedState with savedDesignId := some 0 } emptyStore).1 =
      { designedState with savedDesignId := some 0 } ∧
    (addToCartWithDesign (some "u1")
        { designedState with savedDesignId := some 0 } emptyStore).2.1 =
      emptyStore ∧
    (addToCartWithDesign (some "u1")
        { designedState with savedDesignId := some 0 } emptyStore).2.2 =
      some { productId := sampleProduct.id, designId := some 0
             quantity := designedState.quantity
             size := designedState.selectedSize
             color := designedState.selectedColor
             customPrice := unitPrice sampleProduct designedState.elements } :=
  addToCart_skips_save "u1" { designedState with savedDesignId := some 0 }
    emptyStore sampleProduct 0 rfl rfl

end DesignCanvas
